import Mathlib

/-!
Shallow embedding of `src/ophyd/scaler.py` (devices for the SynApps scaler
record): the field-set generators `_scaler_fields` and `_sc_chans`, the
`ScalerChannel` sub-device with its `match_name` synchronization, and the
`ScalerCH` composite device with its construction-time active-channel
computation and `select_channels`.

The hardware-communication and device-composition framework
(`ophyd.signal`, `ophyd.device`) belongs to this repository but is not part
of the sources here; its behavior is modelled from the specification's
collaborator contracts: a signal exposes `get()` (the current hardware
value at its address) and a mutable display identity `name`; a device
collection exposes its components in declared order together with mutable
`read_attrs` and `configuration_attrs` lists.
-/

/-- A hardware state: the current string value stored at each hardware
address (EPICS process variable). Reads are modelled as function
application; this layer never writes. -/
abbrev Hw := String → String

/-- Modelled from the spec: a hardware-bound field (an `EpicsSignal` or
`EpicsSignalRO` from the missing `ophyd.signal`): a hardware address
`pvname` plus a mutable local display identity `name`, distinct from the
address. -/
structure Signal where
  pvname : String
  name : String

/-- Modelled from the spec: `get()` returns the current hardware value at
the signal's address. -/
def Signal.get (sig : Signal) (hw : Hw) : String :=
  hw sig.pvname

/-- The component kinds used by `scaler.py` (`Kind.HINTED`, `Kind.CONFIG`,
`Kind.OMITTED` from the missing `ophyd.device`). -/
inductive Kind where
  | hinted
  | config
  | omitted
  | normal
deriving DecidableEq

/-- The classes a field definition can name in `scaler.py`. -/
inductive SigCls where
  | epicsSignal
  | epicsSignalRO
  | scalerChannelCls
deriving DecidableEq

/-- `_scaler_fields(cls, attr_base, field_base, range_, **kwargs)`: an
ordered mapping from `'{attr_base}{i}'` to the triple
`(cls, '{field_base}{i}', kwargs)` for `i` in `range_`, in range order.
At every call site in `scaler.py` the only keyword argument is `kind`. -/
def _scaler_fields (cls : SigCls) (attr_base field_base : String)
    (range_ : List Nat) (kind : Kind) : List (String × SigCls × String × Kind) :=
  range_.map (fun i => (attr_base ++ Nat.repr i, cls, field_base ++ Nat.repr i, kind))

/-- `range(1, 33)`: the channel indices 1..32. -/
def scalerRange : List Nat := List.range' 1 32

/-- The `channels` definition of `EpicsScaler`:
`_scaler_fields(EpicsSignalRO, 'chan', '.S', range(1, 33), kind=Kind.HINTED)`. -/
def EpicsScaler.channels_defn : List (String × SigCls × String × Kind) :=
  _scaler_fields .epicsSignalRO "chan" ".S" scalerRange .hinted

/-- The `names` definition of `EpicsScaler`:
`_scaler_fields(EpicsSignal, 'name', '.NM', range(1, 33), kind=Kind.CONFIG)`. -/
def EpicsScaler.names_defn : List (String × SigCls × String × Kind) :=
  _scaler_fields .epicsSignal "name" ".NM" scalerRange .config

/-- The `presets` definition of `EpicsScaler`:
`_scaler_fields(EpicsSignal, 'preset', '.PR', range(1, 33), kind=Kind.OMITTED)`. -/
def EpicsScaler.presets_defn : List (String × SigCls × String × Kind) :=
  _scaler_fields .epicsSignal "preset" ".PR" scalerRange .omitted

/-- The `gates` definition of `EpicsScaler`:
`_scaler_fields(EpicsSignal, 'gate', '.G', range(1, 33), kind=Kind.OMITTED)`. -/
def EpicsScaler.gates_defn : List (String × SigCls × String × Kind) :=
  _scaler_fields .epicsSignal "gate" ".G" scalerRange .omitted

/-- `'{:02d}'.format(k)`: decimal digits of `k` left-padded with zeros to
width 2 (faithful to the Python format for `0 ≤ k < 100`, which covers the
range 1..32 used in `scaler.py`). -/
def pad2 (k : Nat) : String :=
  if k < 10 then "0" ++ Nat.repr k else Nat.repr k

/-- `_sc_chans(attr_fix, id_range)`: an ordered mapping from
`'{attr_fix}{k:02d}'` to `(ScalerChannel, '', {'ch_num': k, 'kind': Kind.HINTED})`
for `k` in `id_range`, in range order. -/
def _sc_chans (attr_fix : String) (id_range : List Nat) :
    List (String × SigCls × String × Nat × Kind) :=
  id_range.map (fun k => (attr_fix ++ pad2 k, SigCls.scalerChannelCls, "", k, Kind.hinted))

/-- The `channels` definition of `ScalerCH`: `_sc_chans('chan', range(1, 33))`. -/
def ScalerCH.channels_defn : List (String × SigCls × String × Nat × Kind) :=
  _sc_chans "chan" scalerRange

/-- `ScalerChannel`: one counting channel. Its four formatted components
resolve to `'{self.prefix}.NM{ch}'`, `'{self.prefix}.S{ch}'`,
`'{self.prefix}.PR{ch}'` and `'{self.prefix}.G{ch}'`. -/
structure ScalerChannel where
  pfx : String
  ch_num : Nat
  chname : Signal
  s : Signal
  preset : Signal
  gate : Signal

/-- `ScalerChannel.match_name()`: `self.s.name = self.chname.get()` — read
the live hardware value of the name field and assign it as the display
identity of the count-value field. -/
def ScalerChannel.match_name (c : ScalerChannel) (hw : Hw) : ScalerChannel :=
  { c with s := { c.s with name := c.chname.get hw } }

/-- `ScalerChannel.__init__(prefix, ch_num)`: store the channel number,
resolve the four component addresses from the formatted suffix patterns,
then immediately invoke `match_name`. The framework's initial display
identity of a freshly created signal is abstracted as `""`; the one signal
whose display identity this layer observes, `s`, is synchronized by
`match_name` before construction returns. -/
def ScalerChannel.init (pfx : String) (ch_num : Nat) (hw : Hw) : ScalerChannel :=
  ScalerChannel.match_name
    { pfx := pfx
      ch_num := ch_num
      chname := { pvname := pfx ++ ".NM" ++ Nat.repr ch_num, name := "" }
      s := { pvname := pfx ++ ".S" ++ Nat.repr ch_num, name := "" }
      preset := { pvname := pfx ++ ".PR" ++ Nat.repr ch_num, name := "" }
      gate := { pvname := pfx ++ ".G" ++ Nat.repr ch_num, name := "" } }
    hw

/-- Modelled from the spec: the channel attribute read as
`getattr(self.channels, s).name` in `ScalerCH.__init__` — "each channel's
resolved display name" (the providing class `ophyd.device.Device` is not in
the sources). A `ScalerChannel`'s resolved display name is the display
identity of its count-value field, which `match_name` keeps synchronized
with the live hardware name field. -/
def ScalerChannel.resolvedName (c : ScalerChannel) : String :=
  c.s.name

/-- Modelled from the spec: the value read as
`getattr(self.channels, s).name.get()` in `ScalerCH.select_channels` —
"each of the 32 channels' live name value": the current hardware value of
the channel's name field. -/
def ScalerChannel.liveName (c : ScalerChannel) (hw : Hw) : String :=
  c.chname.get hw

/-- The identifier of the `k`-th channel component of `ScalerCH.channels`:
`'chan{:02d}'.format(k)`. -/
def chanId (k : Nat) : String :=
  "chan" ++ pad2 k

/-- Modelled from the spec: the channel collection created by the
`DynamicDeviceComponent`: the sub-devices in declared order, each paired
with its component name, together with the collection's mutable read set
and configuration read set. -/
structure ChannelCollection where
  components : List (String × ScalerChannel)
  read_attrs : List String
  configuration_attrs : List String

/-- `ScalerCH`: the composite device. Only the state this layer itself
reads or mutates is carried: the channel collection and the `hints`
field-list (`none` models the framework default before `select_channels`
first assigns it). -/
structure ScalerCH where
  pfx : String
  channels : ChannelCollection
  hints : Option (List String)

/-- `ScalerCH.__init__`: build the 32 `ScalerChannel` sub-devices
`chan01`..`chan32` (each with the empty suffix `''`, hence the parent's
address, per `_sc_chans`), then collect `getattr(self.channels, s).name`
for every component `s` whose name is truthy (non-empty), and assign that
list to both `read_attrs` and `configuration_attrs`. -/
def ScalerCH.init (pfx : String) (hw : Hw) : ScalerCH :=
  { pfx := pfx
    channels :=
      { components := scalerRange.map (fun k => (chanId k, ScalerChannel.init pfx k hw))
        read_attrs :=
          ((scalerRange.map (fun k => (chanId k, ScalerChannel.init pfx k hw))).map
            (fun e => e.2.resolvedName)).filter (fun n => !n.isEmpty)
        configuration_attrs :=
          ((scalerRange.map (fun k => (chanId k, ScalerChannel.init pfx k hw))).map
            (fun e => e.2.resolvedName)).filter (fun n => !n.isEmpty) }
    hints := none }

/-- `ScalerCH.match_names()`: invoke `match_name` on every channel
component, in declared order. -/
def ScalerCH.match_names (d : ScalerCH) (hw : Hw) : ScalerCH :=
  { d with
    channels :=
      { d.channels with
        components := d.channels.components.map (fun e => (e.1, e.2.match_name hw)) } }

/-- Modelled from the spec: a Python `dict` as observed by
`select_channels`: lookup by key (with the last write winning when the same
key is inserted twice) and the key tuple in first-insertion order. -/
structure Pydict where
  lookup : String → Option String
  keys : List String

/-- The empty dict. -/
def Pydict.empty : Pydict :=
  { lookup := fun _ => none, keys := [] }

/-- `d[k] = v`: overwrite the value stored at `k`; append `k` to the key
order only if it is new. -/
def Pydict.insert (d : Pydict) (k v : String) : Pydict :=
  { lookup := fun x => if x = k then some v else d.lookup x
    keys := if k ∈ d.keys then d.keys else d.keys ++ [k] }

/-- The dict comprehension
`{getattr(self.channels, s).name.get(): s for s in self.channels.component_names}`,
inserting in declared component order so that a later component with the
same live name overwrites an earlier one. -/
def name_mapAux (hw : Hw) : List (String × ScalerChannel) → Pydict → Pydict
  | [], d => d
  | e :: rest, d => name_mapAux hw rest (d.insert (e.2.liveName hw) e.1)

/-- The reverse lookup from live display name to component identifier built
at the start of `select_channels`. -/
def name_map (comps : List (String × ScalerChannel)) (hw : Hw) : Pydict :=
  name_mapAux hw comps Pydict.empty

/-- `getattr(self.channels, a)`: the first component declared under the
attribute name `a` (component names are unique in the declared class). -/
def lookupAttr : List (String × ScalerChannel) → String → Option ScalerChannel
  | [], _ => none
  | e :: rest, a => if e.1 = a then some e.2 else lookupAttr rest a

/-- The `for ch in chan_names` loop of `select_channels`: append
`name_map[ch]` for each requested name to the accumulated `read_attrs`
list, or abort at the first `KeyError` with the `RuntimeError` data — the
offending name and `tuple(name_map)`, the currently known names. -/
def selectLoop (m : Pydict) : List String → List String →
    Except (String × List String) (List String)
  | [], acc => .ok acc
  | ch :: rest, acc =>
    match m.lookup ch with
    | some a => selectLoop m rest (acc ++ [a])
    | none => .error (ch, m.keys)

/-- The outcome of `select_channels`: normal return, or a raised
`RuntimeError` carrying the offending name and the known names. Either way
the device state at exit is carried (a raise leaves the mutations already
performed in place). -/
inductive SelectResult where
  | ok (d : ScalerCH)
  | err (bad : String) (valid : List String) (d : ScalerCH)

/-- The device state at exit, for both outcomes. -/
def SelectResult.device : SelectResult → ScalerCH
  | .ok d => d
  | .err _ _ d => d

/-- Whether `select_channels` returned normally. -/
def SelectResult.isOk : SelectResult → Bool
  | .ok _ => true
  | .err _ _ _ => false

/-- `ScalerCH.select_channels(chan_names)`: refresh every channel's display
identity via `match_names`, build the reverse name lookup, walk the
requested names starting from `['chan01']`, and only on success assign the
resulting list to both `read_attrs` and `configuration_attrs` and set
`hints['fields']` to `[getattr(self.channels, ch).s.name for ch in read_attrs[1:]]`.
(The `getattr` in the hints comprehension cannot fail: every identifier in
`read_attrs[1:]` is a value of `name_map`, hence a component name; the
`Option.getD ""` fallback is dead code.) -/
def ScalerCH.select_channels (d : ScalerCH) (chan_names : List String) (hw : Hw) :
    SelectResult :=
  match selectLoop (name_map (d.match_names hw).channels.components hw)
      chan_names ["chan01"] with
  | .error (ch, valid) => .err ch valid (d.match_names hw)
  | .ok ra =>
    .ok { d.match_names hw with
          channels :=
            { (d.match_names hw).channels with
              read_attrs := ra
              configuration_attrs := ra }
          hints := some ((ra.drop 1).map (fun a =>
            ((lookupAttr (d.match_names hw).channels.components a).map
              (fun c => c.s.name)).getD "")) }

/-- The live names of the channels, in declared order (duplicates kept). -/
def liveNames (comps : List (String × ScalerChannel)) (hw : Hw) : List String :=
  comps.map (fun e => e.2.liveName hw)

/-- The live name of the channel at position `k`, when it exists. -/
def liveAt (comps : List (String × ScalerChannel)) (hw : Hw) (k : Nat) : Option String :=
  (comps.get? k).map (fun e => e.2.liveName hw)

/-- The component name stored in the reverse lookup for a live name `x`:
the name of the last declared component whose live name is `x`. -/
def lastMatch (hw : Hw) (x : String) : List (String × ScalerChannel) → Option String
  | [] => none
  | e :: rest =>
    match lastMatch hw x rest with
    | some r => some r
    | none => if e.2.liveName hw = x then some e.1 else none

/-- The component identifier a requested name resolves to
(`name_map[ch]`; `""` only when the name is unknown). -/
def resolveId (comps : List (String × ScalerChannel)) (hw : Hw) (ch : String) : String :=
  ((name_map comps hw).lookup ch).getD ""

/-- The count-value display identity of the channel a requested name
resolves to (the entry `select_channels` places in `hints['fields']` for
that name). -/
def hintName (comps : List (String × ScalerChannel)) (hw : Hw) (ch : String) : String :=
  ((((name_map comps hw).lookup ch).bind (lookupAttr comps)).map
    (fun c => c.s.name)).getD ""

/-- Hardware state for the construction scenario: name fields 1, 4 and 9
hold `"A"`, `"B"`, `"C"`; every other address reads as empty. -/
def hwA : Hw := fun a =>
  if a = ".NM1" then "A" else if a = ".NM4" then "B" else if a = ".NM9" then "C" else ""

/-- Hardware state for the selection scenario: channel 3 is named `"A"`,
channel 5 is named `"B"`; every other address reads as empty. -/
def hwB : Hw := fun a =>
  if a = ".NM3" then "A" else if a = ".NM5" then "B" else ""

/-- Hardware state with a duplicated name: channels 3 and 7 are both named
`"X"`; every other address reads as empty. -/
def hwX : Hw := fun a =>
  if a = ".NM3" then "X" else if a = ".NM7" then "X" else ""

/-! ### Lemmas about the embedded operations -/

theorem Pydict.mem_keys_insert (d : Pydict) (k v x : String) :
    x ∈ (d.insert k v).keys ↔ x ∈ d.keys ∨ x = k := by
  by_cases hk : k ∈ d.keys
  · simp only [Pydict.insert, if_pos hk]
    constructor
    · exact Or.inl
    · rintro (h | rfl)
      · exact h
      · exact hk
  · simp only [Pydict.insert, if_neg hk, List.mem_append, List.mem_singleton]

theorem name_mapAux_lookup (hw : Hw) (x : String) (l : List (String × ScalerChannel)) :
    ∀ d : Pydict,
      (name_mapAux hw l d).lookup x =
        match lastMatch hw x l with
        | some r => some r
        | none => d.lookup x := by
  induction l with
  | nil => intro d; rfl
  | cons e rest ih =>
    intro d
    rw [show name_mapAux hw (e :: rest) d
        = name_mapAux hw rest (d.insert (e.2.liveName hw) e.1) from rfl]
    rw [ih]
    cases hlm : lastMatch hw x rest with
    | some r => simp [lastMatch, hlm]
    | none =>
      simp only [lastMatch, hlm]
      by_cases hx : x = e.2.liveName hw
      · rw [if_pos hx.symm]
        simp [Pydict.insert, hx]
      · rw [if_neg (fun h => hx h.symm)]
        simp [Pydict.insert, hx]

theorem name_map_lookup (comps : List (String × ScalerChannel)) (hw : Hw) (x : String) :
    (name_map comps hw).lookup x = lastMatch hw x comps := by
  rw [name_map, name_mapAux_lookup]
  cases lastMatch hw x comps <;> rfl

theorem name_mapAux_keys (hw : Hw) (x : String) (l : List (String × ScalerChannel)) :
    ∀ d : Pydict, x ∈ (name_mapAux hw l d).keys ↔ x ∈ d.keys ∨ x ∈ liveNames l hw := by
  induction l with
  | nil => intro d; simp [name_mapAux, liveNames]
  | cons e rest ih =>
    intro d
    rw [show name_mapAux hw (e :: rest) d
        = name_mapAux hw rest (d.insert (e.2.liveName hw) e.1) from rfl]
    rw [ih, Pydict.mem_keys_insert]
    simp only [liveNames, List.map_cons, List.mem_cons]
    tauto

theorem name_map_keys_mem (comps : List (String × ScalerChannel)) (hw : Hw) (x : String) :
    x ∈ (name_map comps hw).keys ↔ x ∈ liveNames comps hw := by
  rw [name_map, name_mapAux_keys]
  simp [Pydict.empty]

theorem lastMatch_eq_none_iff (hw : Hw) (x : String) (l : List (String × ScalerChannel)) :
    lastMatch hw x l = none ↔ ∀ e ∈ l, e.2.liveName hw ≠ x := by
  induction l with
  | nil => simp [lastMatch]
  | cons e rest ih =>
    simp only [lastMatch]
    cases hlm : lastMatch hw x rest with
    | some r =>
      simp only [List.mem_cons]
      constructor
      · intro h; cases h
      · intro h
        exfalso
        have hnone : lastMatch hw x rest = none :=
          ih.mpr (fun e2 he2 => h e2 (Or.inr he2))
        rw [hnone] at hlm
        cases hlm
    | none =>
      have hrest := ih.mp hlm
      by_cases hx : e.2.liveName hw = x
      · rw [if_pos hx]
        simp only [List.mem_cons]
        constructor
        · intro h; cases h
        · intro h
          exact absurd hx (h e (Or.inl rfl))
      · rw [if_neg hx]
        simp only [List.mem_cons]
        constructor
        · rintro - e2 (rfl | he2)
          · exact hx
          · exact hrest e2 he2
        · intro _; trivial

theorem name_map_lookup_none_iff (comps : List (String × ScalerChannel)) (hw : Hw)
    (x : String) : (name_map comps hw).lookup x = none ↔ x ∉ liveNames comps hw := by
  rw [name_map_lookup, lastMatch_eq_none_iff]
  constructor
  · intro h hx
    obtain ⟨e, he, hlive⟩ := List.mem_map.mp hx
    exact h e he hlive
  · intro h e he hlive
    exact h (List.mem_map.mpr ⟨e, he, hlive⟩)

theorem name_map_lookup_isSome_iff (comps : List (String × ScalerChannel)) (hw : Hw)
    (x : String) : ((name_map comps hw).lookup x).isSome ↔ x ∈ liveNames comps hw := by
  cases ho : (name_map comps hw).lookup x with
  | none =>
    have hx := (name_map_lookup_none_iff comps hw x).mp ho
    simp [hx]
  | some r =>
    have hx : x ∈ liveNames comps hw := by
      by_contra hx
      rw [(name_map_lookup_none_iff comps hw x).mpr hx] at ho
      cases ho
    simp [hx]

theorem lastMatch_mem (hw : Hw) (x : String) (l : List (String × ScalerChannel)) :
    ∀ r, lastMatch hw x l = some r → ∃ c, (r, c) ∈ l ∧ c.liveName hw = x := by
  induction l with
  | nil => intro r h; cases h
  | cons e rest ih =>
    intro r h
    simp only [lastMatch] at h
    cases hlm : lastMatch hw x rest with
    | some r2 =>
      rw [hlm] at h
      injection h with h
      obtain ⟨c, hc, hlive⟩ := ih r2 hlm
      exact ⟨c, List.mem_cons_of_mem e (h ▸ hc), hlive⟩
    | none =>
      rw [hlm] at h
      by_cases hx : e.2.liveName hw = x
      · rw [if_pos hx] at h
        injection h with h
        refine ⟨e.2, ?_, hx⟩
        rw [← h]
        simp
      · rw [if_neg hx] at h
        cases h

theorem lastMatch_of_last (hw : Hw) (x : String) (l : List (String × ScalerChannel)) :
    ∀ (j : Nat) (e : String × ScalerChannel), l.get? j = some e →
      e.2.liveName hw = x →
      (∀ k, j < k → ∀ e2, l.get? k = some e2 → e2.2.liveName hw ≠ x) →
      lastMatch hw x l = some e.1 := by
  induction l with
  | nil => intro j e h; cases h
  | cons hd rest ih =>
    intro j e hget hlive hafter
    cases j with
    | zero =>
      have hhd : hd = e := by
        simpa using hget
      subst hhd
      have hrest : lastMatch hw x rest = none := by
        rw [lastMatch_eq_none_iff]
        intro e2 he2
        obtain ⟨k, hk⟩ := List.mem_iff_get?.mp he2
        exact hafter (k + 1) (Nat.succ_pos k) e2 (by simpa using hk)
      simp only [lastMatch, hrest]
      rw [if_pos hlive]
    | succ j =>
      have hget' : rest.get? j = some e := by
        simpa using hget
      have hrest := ih j e hget' hlive
        (fun k hk e2 h2 => hafter (k + 1) (Nat.succ_lt_succ hk) e2 (by simpa using h2))
      simp only [lastMatch, hrest]

theorem lookupAttr_of_mem_nodup (l : List (String × ScalerChannel)) (a : String)
    (c : ScalerChannel) (hnd : (l.map Prod.fst).Nodup) (hmem : (a, c) ∈ l) :
    lookupAttr l a = some c := by
  induction l with
  | nil => cases hmem
  | cons e rest ih =>
    rw [List.map_cons] at hnd
    have hnd1 : e.1 ∉ rest.map Prod.fst := (List.nodup_cons.mp hnd).1
    have hnd2 := (List.nodup_cons.mp hnd).2
    rcases List.mem_cons.mp hmem with heq | hmem2
    · rw [← heq]
      simp [lookupAttr]
    · have hne : e.1 ≠ a := by
        intro h
        apply hnd1
        rw [h]
        exact List.mem_map_of_mem Prod.fst hmem2
      simp only [lookupAttr, if_neg hne]
      exact ih hnd2 hmem2

theorem selectLoop_ok (m : Pydict) (names : List String) :
    ∀ acc, (∀ ch ∈ names, (m.lookup ch).isSome) →
      selectLoop m names acc
        = .ok (acc ++ names.map (fun ch => (m.lookup ch).getD "")) := by
  induction names with
  | nil => intro acc _; simp [selectLoop]
  | cons ch rest ih =>
    intro acc h
    obtain ⟨a, ha⟩ := Option.isSome_iff_exists.mp (h ch (List.mem_cons_self ch rest))
    simp only [selectLoop, ha]
    rw [ih (acc ++ [a]) (fun z hz => h z (List.mem_cons_of_mem ch hz))]
    simp [ha, List.append_assoc]

theorem selectLoop_err (m : Pydict) (names : List String) :
    ∀ acc, (∃ ch ∈ names, m.lookup ch = none) →
      ∃ bad, selectLoop m names acc = .error (bad, m.keys)
        ∧ bad ∈ names ∧ m.lookup bad = none := by
  induction names with
  | nil =>
    intro acc h
    obtain ⟨ch, hch, _⟩ := h
    cases hch
  | cons ch rest ih =>
    intro acc h
    cases hc : m.lookup ch with
    | none =>
      refine ⟨ch, ?_, List.mem_cons_self ch rest, hc⟩
      simp [selectLoop, hc]
    | some a =>
      obtain ⟨z, hz, hzn⟩ := h
      have hzr : z ∈ rest := by
        rcases List.mem_cons.mp hz with rfl | h2
        · rw [hc] at hzn; cases hzn
        · exact h2
      obtain ⟨bad, h1, h2, h3⟩ := ih (acc ++ [a]) ⟨z, hzr, hzn⟩
      refine ⟨bad, ?_, List.mem_cons_of_mem ch h2, h3⟩
      simp only [selectLoop, hc]
      exact h1

theorem components_match_names (d : ScalerCH) (hw : Hw) :
    (d.match_names hw).channels.components
      = d.channels.components.map (fun e => (e.1, e.2.match_name hw)) := rfl

theorem liveNames_map_match (l : List (String × ScalerChannel)) (hw : Hw) :
    liveNames (l.map (fun e => (e.1, e.2.match_name hw))) hw = liveNames l hw := by
  rw [liveNames, liveNames, List.map_map]
  exact rfl

theorem liveNames_match_names (d : ScalerCH) (hw : Hw) :
    liveNames (d.match_names hw).channels.components hw
      = liveNames d.channels.components hw := by
  rw [components_match_names]
  exact liveNames_map_match d.channels.components hw

theorem fst_components_match_names (d : ScalerCH) (hw : Hw) :
    (d.match_names hw).channels.components.map Prod.fst
      = d.channels.components.map Prod.fst := by
  rw [components_match_names, List.map_map]
  exact rfl

theorem liveAt_map_match (l : List (String × ScalerChannel)) (hw : Hw) (k : Nat) :
    liveAt (l.map (fun e => (e.1, e.2.match_name hw))) hw k = liveAt l hw k := by
  rw [liveAt, liveAt, List.get?_map]
  cases l.get? k <;> rfl

theorem synced_sName (l : List (String × ScalerChannel)) (hw : Hw) :
    ∀ e ∈ l.map (fun e => (e.1, e.2.match_name hw)), e.2.s.name = e.2.liveName hw := by
  intro e he
  obtain ⟨e0, -, rfl⟩ := List.mem_map.mp he
  rfl

/-! ### Claim theorems -/

/-- C1 (code bug): constructing the composite device with exactly channels
1, 4 and 9 reporting the non-empty hardware names `"A"`, `"B"`, `"C"` makes
`ScalerCH.__init__` assign `["A", "B", "C"]` — the active channels' display
names, in ascending channel order — to both the read set and configuration
read set, not the sub-device identifiers `["chan01", "chan04", "chan09"]`
the claim (and `select_channels`, which stores identifiers in the same
lists) calls for: the loop appends `ch_name`, not the identifier `s`. -/
theorem c1_init_active_list_eval :
    (ScalerCH.init "" hwA).channels.read_attrs = ["A", "B", "C"]
    ∧ (ScalerCH.init "" hwA).channels.configuration_attrs = ["A", "B", "C"]
    ∧ (ScalerCH.init "" hwA).channels.read_attrs ≠ ["chan01", "chan04", "chan09"] := by
  decide

/-- C5: the field-set generator, applied as in `EpicsScaler`, pairs the
unpadded attribute keys `chan{i}` / `name{i}` / `preset{i}` / `gate{i}`
with the hardware-address suffixes `.S{i}` / `.NM{i}` / `.PR{i}` / `.G{i}`
for `i` in 1..32 in range order with no duplicate keys, while `_sc_chans`
pairs the zero-padded sub-device identifiers `chan01`..`chan32` with the
channel indices 1..32. -/
theorem c5_field_set_generators :
    EpicsScaler.channels_defn.map (fun e => (e.1, e.2.2.1))
      = [("chan1", ".S1"), ("chan2", ".S2"), ("chan3", ".S3"), ("chan4", ".S4"),
         ("chan5", ".S5"), ("chan6", ".S6"), ("chan7", ".S7"), ("chan8", ".S8"),
         ("chan9", ".S9"), ("chan10", ".S10"), ("chan11", ".S11"), ("chan12", ".S12"),
         ("chan13", ".S13"), ("chan14", ".S14"), ("chan15", ".S15"), ("chan16", ".S16"),
         ("chan17", ".S17"), ("chan18", ".S18"), ("chan19", ".S19"), ("chan20", ".S20"),
         ("chan21", ".S21"), ("chan22", ".S22"), ("chan23", ".S23"), ("chan24", ".S24"),
         ("chan25", ".S25"), ("chan26", ".S26"), ("chan27", ".S27"), ("chan28", ".S28"),
         ("chan29", ".S29"), ("chan30", ".S30"), ("chan31", ".S31"), ("chan32", ".S32")]
    ∧ EpicsScaler.names_defn.map (fun e => (e.1, e.2.2.1))
      = [("name1", ".NM1"), ("name2", ".NM2"), ("name3", ".NM3"), ("name4", ".NM4"),
         ("name5", ".NM5"), ("name6", ".NM6"), ("name7", ".NM7"), ("name8", ".NM8"),
         ("name9", ".NM9"), ("name10", ".NM10"), ("name11", ".NM11"), ("name12", ".NM12"),
         ("name13", ".NM13"), ("name14", ".NM14"), ("name15", ".NM15"), ("name16", ".NM16"),
         ("name17", ".NM17"), ("name18", ".NM18"), ("name19", ".NM19"), ("name20", ".NM20"),
         ("name21", ".NM21"), ("name22", ".NM22"), ("name23", ".NM23"), ("name24", ".NM24"),
         ("name25", ".NM25"), ("name26", ".NM26"), ("name27", ".NM27"), ("name28", ".NM28"),
         ("name29", ".NM29"), ("name30", ".NM30"), ("name31", ".NM31"), ("name32", ".NM32")]
    ∧ EpicsScaler.presets_defn.map (fun e => (e.1, e.2.2.1))
      = [("preset1", ".PR1"), ("preset2", ".PR2"), ("preset3", ".PR3"), ("preset4", ".PR4"),
         ("preset5", ".PR5"), ("preset6", ".PR6"), ("preset7", ".PR7"), ("preset8", ".PR8"),
         ("preset9", ".PR9"), ("preset10", ".PR10"), ("preset11", ".PR11"),
         ("preset12", ".PR12"), ("preset13", ".PR13"), ("preset14", ".PR14"),
         ("preset15", ".PR15"), ("preset16", ".PR16"), ("preset17", ".PR17"),
         ("preset18", ".PR18"), ("preset19", ".PR19"), ("preset20", ".PR20"),
         ("preset21", ".PR21"), ("preset22", ".PR22"), ("preset23", ".PR23"),
         ("preset24", ".PR24"), ("preset25", ".PR25"), ("preset26", ".PR26"),
         ("preset27", ".PR27"), ("preset28", ".PR28"), ("preset29", ".PR29"),
         ("preset30", ".PR30"), ("preset31", ".PR31"), ("preset32", ".PR32")]
    ∧ EpicsScaler.gates_defn.map (fun e => (e.1, e.2.2.1))
      = [("gate1", ".G1"), ("gate2", ".G2"), ("gate3", ".G3"), ("gate4", ".G4"),
         ("gate5", ".G5"), ("gate6", ".G6"), ("gate7", ".G7"), ("gate8", ".G8"),
         ("gate9", ".G9"), ("gate10", ".G10"), ("gate11", ".G11"), ("gate12", ".G12"),
         ("gate13", ".G13"), ("gate14", ".G14"), ("gate15", ".G15"), ("gate16", ".G16"),
         ("gate17", ".G17"), ("gate18", ".G18"), ("gate19", ".G19"), ("gate20", ".G20"),
         ("gate21", ".G21"), ("gate22", ".G22"), ("gate23", ".G23"), ("gate24", ".G24"),
         ("gate25", ".G25"), ("gate26", ".G26"), ("gate27", ".G27"), ("gate28", ".G28"),
         ("gate29", ".G29"), ("gate30", ".G30"), ("gate31", ".G31"), ("gate32", ".G32")]
    ∧ (EpicsScaler.channels_defn.map (fun e => e.1)).Nodup
    ∧ ScalerCH.channels_defn.map (fun e => (e.1, e.2.2.2.1))
      = [("chan01", 1), ("chan02", 2), ("chan03", 3), ("chan04", 4), ("chan05", 5),
         ("chan06", 6), ("chan07", 7), ("chan08", 8), ("chan09", 9), ("chan10", 10),
         ("chan11", 11), ("chan12", 12), ("chan13", 13), ("chan14", 14), ("chan15", 15),
         ("chan16", 16), ("chan17", 17), ("chan18", 18), ("chan19", 19), ("chan20", 20),
         ("chan21", 21), ("chan22", 22), ("chan23", 23), ("chan24", 24), ("chan25", 25),
         ("chan26", 26), ("chan27", 27), ("chan28", 28), ("chan29", 29), ("chan30", 30),
         ("chan31", 31), ("chan32", 32)]
    ∧ (ScalerCH.channels_defn.map (fun e => e.1)).Nodup := by
  refine ⟨by decide, by decide, by decide, by decide, by decide, by decide, by decide⟩

/-- C6: `match_name` is idempotent — a second call with no intervening
hardware change leaves the whole channel, and in particular the count-value
field's display identity, exactly as the first call left it. -/
theorem c6_match_name_idempotent (c : ScalerChannel) (hw : Hw) :
    (c.match_name hw).match_name hw = c.match_name hw
    ∧ ((c.match_name hw).match_name hw).s.name = (c.match_name hw).s.name :=
  ⟨rfl, rfl⟩

/-- C10: `match_name` modifies only the display identity of the count-value
field — the channel number, the parent address, the name, preset and gate
fields (addresses and display identities alike), and the count-value
field's own hardware address are all unchanged; the hardware state is only
read, never written. -/
theorem c10_match_name_frame (c : ScalerChannel) (hw : Hw) :
    (c.match_name hw).ch_num = c.ch_num
    ∧ (c.match_name hw).pfx = c.pfx
    ∧ (c.match_name hw).chname = c.chname
    ∧ (c.match_name hw).preset = c.preset
    ∧ (c.match_name hw).gate = c.gate
    ∧ (c.match_name hw).s.pvname = c.s.pvname :=
  ⟨rfl, rfl, rfl, rfl, rfl, rfl⟩

/-- C9: construction and every successful `select_channels` call assign the
same list to the channel collection's read set and configuration read set,
so the two sets never diverge under this layer's own operations. -/
theorem c9_read_and_configuration_attrs_agree :
    (∀ (pfx : String) (hw : Hw),
      (ScalerCH.init pfx hw).channels.read_attrs
        = (ScalerCH.init pfx hw).channels.configuration_attrs)
    ∧ ∀ (d : ScalerCH) (hw : Hw) (chan_names : List String),
        (d.select_channels chan_names hw).isOk = true →
        (d.select_channels chan_names hw).device.channels.read_attrs
          = (d.select_channels chan_names hw).device.channels.configuration_attrs := by
  constructor
  · intro pfx hw
    rfl
  · intro d hw chan_names hok
    simp only [ScalerCH.select_channels] at hok ⊢
    cases hloop : selectLoop (name_map (d.match_names hw).channels.components hw)
        chan_names ["chan01"] with
    | error p =>
      obtain ⟨pb, pv⟩ := p
      rw [hloop] at hok
      simp [SelectResult.isOk] at hok
    | ok ra =>
      rfl

/-- Witness for C9 at a concrete device and selection. -/
theorem c9_read_and_configuration_attrs_agree_witness :
    ((ScalerCH.init "" hwB).channels.read_attrs
      = (ScalerCH.init "" hwB).channels.configuration_attrs)
    ∧ ((ScalerCH.init "" hwB).select_channels ["A"] hwB).isOk = true
    ∧ ((ScalerCH.init "" hwB).select_channels ["A"] hwB).device.channels.read_attrs
        = ((ScalerCH.init "" hwB).select_channels ["A"] hwB).device.channels.configuration_attrs :=
  ⟨c9_read_and_configuration_attrs_agree.1 "" hwB, by decide,
   c9_read_and_configuration_attrs_agree.2 (ScalerCH.init "" hwB) hwB ["A"] (by decide)⟩

/-- C2: whenever some requested name matches no channel's current live
display name, `select_channels` raises a `RuntimeError` identifying an
invalid requested name and enumerating exactly the currently known valid
names, and the channel collection's read set and configuration read set are
left exactly as they were before the call. -/
theorem c2_select_unknown_name_errors (d : ScalerCH) (hw : Hw) (chan_names : List String)
    (h : ∃ ch ∈ chan_names, ch ∉ liveNames d.channels.components hw) :
    ∃ bad valid,
      d.select_channels chan_names hw = .err bad valid (d.match_names hw)
      ∧ bad ∈ chan_names
      ∧ bad ∉ liveNames d.channels.components hw
      ∧ (∀ n, n ∈ valid ↔ n ∈ liveNames d.channels.components hw)
      ∧ (d.match_names hw).channels.read_attrs = d.channels.read_attrs
      ∧ (d.match_names hw).channels.configuration_attrs = d.channels.configuration_attrs := by
  obtain ⟨ch0, hch0, hnot⟩ := h
  have hnone : (name_map (d.match_names hw).channels.components hw).lookup ch0 = none := by
    rw [name_map_lookup_none_iff, liveNames_match_names]
    exact hnot
  obtain ⟨bad, hloop, hbadmem, hbadnone⟩ :=
    selectLoop_err (name_map (d.match_names hw).channels.components hw)
      chan_names ["chan01"] ⟨ch0, hch0, hnone⟩
  refine ⟨bad, (name_map (d.match_names hw).channels.components hw).keys,
    ?_, hbadmem, ?_, ?_, rfl, rfl⟩
  · simp only [ScalerCH.select_channels, hloop]
  · rw [← liveNames_match_names d hw]
    exact (name_map_lookup_none_iff _ _ _).mp hbadnone
  · intro n
    rw [name_map_keys_mem, liveNames_match_names]

/-- Witness for C2: requesting a name no channel carries. -/
theorem c2_select_unknown_name_errors_witness :
    (∃ ch ∈ ["nonexistent"],
      ch ∉ liveNames (ScalerCH.init "" hwB).channels.components hwB)
    ∧ ∃ bad valid,
        (ScalerCH.init "" hwB).select_channels ["nonexistent"] hwB
          = .err bad valid ((ScalerCH.init "" hwB).match_names hwB)
        ∧ bad ∈ ["nonexistent"]
        ∧ bad ∉ liveNames (ScalerCH.init "" hwB).channels.components hwB
        ∧ (∀ n, n ∈ valid ↔ n ∈ liveNames (ScalerCH.init "" hwB).channels.components hwB)
        ∧ ((ScalerCH.init "" hwB).match_names hwB).channels.read_attrs
            = (ScalerCH.init "" hwB).channels.read_attrs
        ∧ ((ScalerCH.init "" hwB).match_names hwB).channels.configuration_attrs
            = (ScalerCH.init "" hwB).channels.configuration_attrs :=
  ⟨by decide,
   c2_select_unknown_name_errors (ScalerCH.init "" hwB) hwB ["nonexistent"] (by decide)⟩

/-- C8: even a failing `select_channels` call has already run
`match_names()`: the state carried by the raised error is exactly
`match_names()` applied to the caller's device, so every channel's
count-value display identity equals its live hardware name at the time of
the raise, while the read set and configuration read set are untouched. -/
theorem c8_match_names_precedes_error (d : ScalerCH) (hw : Hw) (chan_names : List String)
    (h : ∃ ch ∈ chan_names, ch ∉ liveNames d.channels.components hw) :
    ∃ bad valid,
      d.select_channels chan_names hw = .err bad valid (d.match_names hw)
      ∧ (d.match_names hw).channels.components
          = d.channels.components.map (fun e => (e.1, e.2.match_name hw))
      ∧ (∀ e ∈ (d.match_names hw).channels.components, e.2.s.name = e.2.liveName hw)
      ∧ (d.match_names hw).channels.read_attrs = d.channels.read_attrs
      ∧ (d.match_names hw).channels.configuration_attrs = d.channels.configuration_attrs := by
  obtain ⟨ch0, hch0, hnot⟩ := h
  have hnone : (name_map (d.match_names hw).channels.components hw).lookup ch0 = none := by
    rw [name_map_lookup_none_iff, liveNames_match_names]
    exact hnot
  obtain ⟨bad, hloop, -, -⟩ :=
    selectLoop_err (name_map (d.match_names hw).channels.components hw)
      chan_names ["chan01"] ⟨ch0, hch0, hnone⟩
  refine ⟨bad, (name_map (d.match_names hw).channels.components hw).keys,
    ?_, rfl, ?_, rfl, rfl⟩
  · simp only [ScalerCH.select_channels, hloop]
  · rw [components_match_names]
    exact synced_sName d.channels.components hw

/-- Witness for C8 at a concrete failing selection. -/
theorem c8_match_names_precedes_error_witness :
    (∃ ch ∈ ["A", "zzz"],
      ch ∉ liveNames (ScalerCH.init "" hwB).channels.components hwB)
    ∧ ∃ bad valid,
        (ScalerCH.init "" hwB).select_channels ["A", "zzz"] hwB
          = .err bad valid ((ScalerCH.init "" hwB).match_names hwB)
        ∧ ((ScalerCH.init "" hwB).match_names hwB).channels.components
            = (ScalerCH.init "" hwB).channels.components.map
                (fun e => (e.1, e.2.match_name hwB))
        ∧ (∀ e ∈ ((ScalerCH.init "" hwB).match_names hwB).channels.components,
            e.2.s.name = e.2.liveName hwB)
        ∧ ((ScalerCH.init "" hwB).match_names hwB).channels.read_attrs
            = (ScalerCH.init "" hwB).channels.read_attrs
        ∧ ((ScalerCH.init "" hwB).match_names hwB).channels.configuration_attrs
            = (ScalerCH.init "" hwB).channels.configuration_attrs :=
  ⟨by decide,
   c8_match_names_precedes_error (ScalerCH.init "" hwB) hwB ["A", "zzz"] (by decide)⟩

/-- C3: when every requested name resolves to a channel, `select_channels`
succeeds and sets both the read set and the configuration read set to
exactly `"chan01"` followed by the identifiers the requested names resolve
to, in caller order — each resolved identifier naming a channel whose live
display name is the requested one; in particular, with channels 3 and 5
named `"A"` and `"B"`, selecting `["A", "B"]` yields exactly
`["chan01", "chan03", "chan05"]`. -/
theorem c3_select_sets_read_attrs :
    (∀ (d : ScalerCH) (hw : Hw) (chan_names : List String),
      (∀ ch ∈ chan_names, ch ∈ liveNames d.channels.components hw) →
      (d.select_channels chan_names hw).isOk = true
      ∧ (d.select_channels chan_names hw).device.channels.read_attrs
          = "chan01" :: chan_names.map
              (resolveId (d.match_names hw).channels.components hw)
      ∧ (d.select_channels chan_names hw).device.channels.configuration_attrs
          = "chan01" :: chan_names.map
              (resolveId (d.match_names hw).channels.components hw)
      ∧ ∀ ch ∈ chan_names, ∃ c,
          (resolveId (d.match_names hw).channels.components hw ch, c)
            ∈ (d.match_names hw).channels.components
          ∧ c.liveName hw = ch)
    ∧ ((ScalerCH.init "" hwB).select_channels ["A", "B"] hwB).isOk = true
    ∧ ((ScalerCH.init "" hwB).select_channels ["A", "B"] hwB).device.channels.read_attrs
        = ["chan01", "chan03", "chan05"]
    ∧ ((ScalerCH.init "" hwB).select_channels ["A", "B"] hwB).device.channels.configuration_attrs
        = ["chan01", "chan03", "chan05"] := by
  refine ⟨?_, by decide, by decide, by decide⟩
  intro d hw chan_names hlive
  have hsome : ∀ ch ∈ chan_names,
      ((name_map (d.match_names hw).channels.components hw).lookup ch).isSome := by
    intro ch hch
    rw [name_map_lookup_isSome_iff, liveNames_match_names]
    exact hlive ch hch
  have hloop := selectLoop_ok (name_map (d.match_names hw).channels.components hw)
    chan_names ["chan01"] hsome
  refine ⟨?_, ?_, ?_, ?_⟩
  · simp only [ScalerCH.select_channels, hloop, SelectResult.isOk]
  · simp only [ScalerCH.select_channels, hloop, SelectResult.device]
    rfl
  · simp only [ScalerCH.select_channels, hloop, SelectResult.device]
    rfl
  · intro ch hch
    obtain ⟨r, hr⟩ := Option.isSome_iff_exists.mp (hsome ch hch)
    have hlast : lastMatch hw ch (d.match_names hw).channels.components = some r := by
      rw [← name_map_lookup]
      exact hr
    obtain ⟨c, hmem, hlivec⟩ :=
      lastMatch_mem hw ch (d.match_names hw).channels.components r hlast
    refine ⟨c, ?_, hlivec⟩
    simp only [resolveId, hr, Option.getD_some]
    exact hmem

/-- Witness for C3's general part: channels 3 and 5 named `"A"`, `"B"`. -/
theorem c3_select_sets_read_attrs_witness :
    (∀ ch ∈ ["A", "B"],
      ch ∈ liveNames (ScalerCH.init "" hwB).channels.components hwB)
    ∧ (((ScalerCH.init "" hwB).select_channels ["A", "B"] hwB).isOk = true
      ∧ ((ScalerCH.init "" hwB).select_channels ["A", "B"] hwB).device.channels.read_attrs
          = "chan01" :: ["A", "B"].map
              (resolveId ((ScalerCH.init "" hwB).match_names hwB).channels.components hwB)
      ∧ ((ScalerCH.init "" hwB).select_channels
            ["A", "B"] hwB).device.channels.configuration_attrs
          = "chan01" :: ["A", "B"].map
              (resolveId ((ScalerCH.init "" hwB).match_names hwB).channels.components hwB)
      ∧ ∀ ch ∈ ["A", "B"], ∃ c,
          (resolveId ((ScalerCH.init "" hwB).match_names hwB).channels.components hwB ch, c)
            ∈ ((ScalerCH.init "" hwB).match_names hwB).channels.components
          ∧ c.liveName hwB = ch) :=
  ⟨by decide,
   c3_select_sets_read_attrs.1 (ScalerCH.init "" hwB) hwB ["A", "B"] (by decide)⟩

/-- C7: a successful `select_channels` sets the hints field-list to exactly
the count-value display identities of the channels resolved for the
requested names, in caller order (the forced `chan01` is dropped from the
hints, entering only if explicitly requested); each such identity equals
the requested name itself, having just been synchronized. -/
theorem c7_select_sets_hints (d : ScalerCH) (hw : Hw) (chan_names : List String)
    (hnodup : (d.channels.components.map Prod.fst).Nodup)
    (hlive : ∀ ch ∈ chan_names, ch ∈ liveNames d.channels.components hw) :
    (d.select_channels chan_names hw).isOk = true
    ∧ (d.select_channels chan_names hw).device.hints
        = some (chan_names.map (hintName (d.match_names hw).channels.components hw))
    ∧ ∀ ch ∈ chan_names,
        hintName (d.match_names hw).channels.components hw ch = ch := by
  have hsome : ∀ ch ∈ chan_names,
      ((name_map (d.match_names hw).channels.components hw).lookup ch).isSome := by
    intro ch hch
    rw [name_map_lookup_isSome_iff, liveNames_match_names]
    exact hlive ch hch
  have hloop := selectLoop_ok (name_map (d.match_names hw).channels.components hw)
    chan_names ["chan01"] hsome
  refine ⟨?_, ?_, ?_⟩
  · simp only [ScalerCH.select_channels, hloop, SelectResult.isOk]
  · simp only [ScalerCH.select_channels, hloop, SelectResult.device]
    rw [show List.drop 1
        (["chan01"] ++ chan_names.map (fun ch =>
          ((name_map (d.match_names hw).channels.components hw).lookup ch).getD ""))
        = chan_names.map (fun ch =>
          ((name_map (d.match_names hw).channels.components hw).lookup ch).getD "")
      from rfl]
    rw [List.map_map]
    refine congrArg some (List.map_congr_left ?_)
    intro ch hch
    obtain ⟨r, hr⟩ := Option.isSome_iff_exists.mp (hsome ch hch)
    simp [hintName, hr, Function.comp]
  · intro ch hch
    obtain ⟨r, hr⟩ := Option.isSome_iff_exists.mp (hsome ch hch)
    have hlast : lastMatch hw ch (d.match_names hw).channels.components = some r := by
      rw [← name_map_lookup]
      exact hr
    obtain ⟨c, hmem, hlivec⟩ :=
      lastMatch_mem hw ch (d.match_names hw).channels.components r hlast
    have hnodup2 : ((d.match_names hw).channels.components.map Prod.fst).Nodup := by
      rw [fst_components_match_names]
      exact hnodup
    have hla : lookupAttr (d.match_names hw).channels.components r = some c :=
      lookupAttr_of_mem_nodup (d.match_names hw).channels.components r c hnodup2 hmem
    have hsn : c.s.name = c.liveName hw := by
      refine synced_sName d.channels.components hw (r, c) ?_
      rw [← components_match_names]
      exact hmem
    simp [hintName, hr, hla, hsn, hlivec]

/-- Witness for C7: selecting `["A", "B"]` on channels named `"A"`, `"B"`. -/
theorem c7_select_sets_hints_witness :
    ((ScalerCH.init "" hwB).channels.components.map Prod.fst).Nodup
    ∧ (∀ ch ∈ ["A", "B"],
        ch ∈ liveNames (ScalerCH.init "" hwB).channels.components hwB)
    ∧ (((ScalerCH.init "" hwB).select_channels ["A", "B"] hwB).isOk = true
      ∧ ((ScalerCH.init "" hwB).select_channels ["A", "B"] hwB).device.hints
          = some (["A", "B"].map
              (hintName ((ScalerCH.init "" hwB).match_names hwB).channels.components hwB))
      ∧ ∀ ch ∈ ["A", "B"],
          hintName ((ScalerCH.init "" hwB).match_names hwB).channels.components hwB ch
            = ch) :=
  ⟨by decide, by decide,
   c7_select_sets_hints (ScalerCH.init "" hwB) hwB ["A", "B"] (by decide) (by decide)⟩

/-- C4: when exactly two distinct channels share the live display name `x`,
the reverse lookup built by `select_channels` maps `x` to the component
name of the higher-indexed of the two (later insertions overwrite earlier
ones), so `select_channels([x])` selects the higher-indexed channel. -/
theorem c4_duplicate_names_resolve_to_higher_index
    (d : ScalerCH) (hw : Hw) (x : String) (i j : Nat) (sj : String)
    (hij : i < j)
    (hi : liveAt d.channels.components hw i = some x)
    (hj : liveAt d.channels.components hw j = some x)
    (hsj : (d.channels.components.get? j).map Prod.fst = some sj)
    (honly : ∀ k, k < d.channels.components.length →
      liveAt d.channels.components hw k = some x → k = i ∨ k = j) :
    (name_map (d.match_names hw).channels.components hw).lookup x = some sj
    ∧ (d.select_channels [x] hw).isOk = true
    ∧ (d.select_channels [x] hw).device.channels.read_attrs = ["chan01", sj]
    ∧ (d.select_channels [x] hw).device.channels.configuration_attrs
        = ["chan01", sj] := by
  cases hej : d.channels.components.get? j with
  | none =>
    rw [hej] at hsj
    cases hsj
  | some e =>
    have hfst : e.1 = sj := by
      rw [hej] at hsj
      simpa using hsj
    have hlivee : e.2.liveName hw = x := by
      rw [liveAt, hej] at hj
      simpa using hj
    have hej2 : (d.match_names hw).channels.components.get? j
        = some (e.1, e.2.match_name hw) := by
      rw [components_match_names, List.get?_map, hej]
      rfl
    have hlive2 : (e.1, e.2.match_name hw).2.liveName hw = x := hlivee
    have hafter : ∀ k, j < k → ∀ e2,
        (d.match_names hw).channels.components.get? k = some e2 →
        e2.2.liveName hw ≠ x := by
      intro k hk e2 h2 hx2
      have hA : liveAt (d.match_names hw).channels.components hw k = some x := by
        rw [liveAt, h2]
        simp [hx2]
      rw [components_match_names, liveAt_map_match] at hA
      have hklen : k < d.channels.components.length := by
        by_contra hge
        rw [liveAt, List.get?_eq_none.mpr (Nat.le_of_not_lt hge)] at hA
        cases hA
      rcases honly k hklen hA with rfl | rfl
      · omega
      · omega
    have hlast : lastMatch hw x (d.match_names hw).channels.components
        = some (e.1, e.2.match_name hw).1 :=
      lastMatch_of_last hw x (d.match_names hw).channels.components j
        (e.1, e.2.match_name hw) hej2 hlive2 hafter
    have hlook : (name_map (d.match_names hw).channels.components hw).lookup x
        = some sj := by
      rw [name_map_lookup, hlast, hfst]
    have hloop : selectLoop (name_map (d.match_names hw).channels.components hw)
        [x] ["chan01"] = .ok ["chan01", sj] := by
      simp [selectLoop, hlook]
    refine ⟨hlook, ?_, ?_, ?_⟩
    · simp only [ScalerCH.select_channels, hloop, SelectResult.isOk]
    · simp only [ScalerCH.select_channels, hloop, SelectResult.device]
    · simp only [ScalerCH.select_channels, hloop, SelectResult.device]

/-- Witness for C4: channels 3 and 7 both named `"X"`; the selection
resolves to `chan07`. -/
theorem c4_duplicate_names_resolve_to_higher_index_witness :
    (2 < 6
      ∧ liveAt (ScalerCH.init "" hwX).channels.components hwX 2 = some "X"
      ∧ liveAt (ScalerCH.init "" hwX).channels.components hwX 6 = some "X"
      ∧ ((ScalerCH.init "" hwX).channels.components.get? 6).map Prod.fst = some "chan07"
      ∧ ∀ k, k < (ScalerCH.init "" hwX).channels.components.length →
          liveAt (ScalerCH.init "" hwX).channels.components hwX k = some "X" →
          k = 2 ∨ k = 6)
    ∧ ((name_map ((ScalerCH.init "" hwX).match_names hwX).channels.components hwX).lookup "X"
          = some "chan07"
      ∧ ((ScalerCH.init "" hwX).select_channels ["X"] hwX).isOk = true
      ∧ ((ScalerCH.init "" hwX).select_channels ["X"] hwX).device.channels.read_attrs
          = ["chan01", "chan07"]
      ∧ ((ScalerCH.init "" hwX).select_channels ["X"] hwX).device.channels.configuration_attrs
          = ["chan01", "chan07"]) :=
  ⟨⟨by decide, by decide, by decide, by decide, by decide⟩,
   c4_duplicate_names_resolve_to_higher_index (ScalerCH.init "" hwX) hwX "X" 2 6 "chan07"
     (by decide) (by decide) (by decide) (by decide) (by decide)⟩

